import Mathlib

/-!
Verification of ilovetv_cache (src/main.rs) against its specification.

The program is a caching daemon: it periodically fetches two remote
resources (an M3U playlist and an optional XMLTV document), stores each
under a temporary file name in a cache directory, renames the temporary
file onto a stable published name, and serves the directory over HTTP.

This file gives a shallow embedding of the refresh/retry/scheduling core:

* `save_to_file` models `ILoveTv::save_to_file` (main.rs lines 153-181).
  The network and the local disk are oracles: an `HttpAttempt` says what
  one HTTP GET does (send error, status code, whether `File::create`
  succeeds, and the chunk-by-chunk behaviour of the body stream, each
  chunk recording whether its `write` succeeds).
* `refresh` models `ILoveTv::refresh` (lines 121-151): resolve the link,
  split the published file name on the last dot, fetch into the temporary
  file, then rename the temporary file onto the published name.  As in
  the source, a `save_to_file` error is only logged, not propagated: the
  rename runs regardless.
* `retries` / `refreshOne` model the retry loop of `refresh_loop`
  (lines 101-119) for one resource: first attempt, then while the status
  is an error and `counter <= retry`, sleep 30 seconds and try again.
* `refresh_loop` models the `for link_type in LinkType::iter()` loop,
  which visits `M3U` then `XmlTv` in declaration order.
* `sleepSecondsTillTarget` and `daemonizeFirst` model `daemonize`
  (lines 67-99) at whole-second granularity: the 05:30 target, the
  19:00 startup cutoff, and the first pass of the steady-state loop up
  to its first scheduled sleep.
* `iLoveTvNew` models `ILoveTv::new` (lines 45-65): `$M3U` is required
  (missing means `process::exit(0)` after a diagnostic), `$XML_TV` is
  optional (missing means a diagnostic only).

File contents are `List Nat` (byte sequences); file-system effects are
explicit state passing over `FsState` (the two temporary and the two
published files); observable actions (fetch attempts, publishes, sleeps)
are collected in an event trace of type `List Ev`.
-/

namespace ILovetv

/-- The LinkType enum of main.rs (lines 184-188); `EnumIter` iterates the
variants in declaration order, `M3U` first. -/
inductive LinkType where
  | M3U
  | XmlTv
deriving DecidableEq, Repr

/-- The iteration order of `LinkType::iter()`. -/
def iterOrder : List LinkType := [LinkType.M3U, LinkType.XmlTv]

/-- The configuration the `ILoveTv` struct holds: the required M3U url and
the optional XMLTV url (main.rs lines 38-42). -/
structure Config where
  m3u : String
  xml_tv : Option String
deriving DecidableEq, Repr

/-- The link selected for a resource by the match at main.rs lines 122-125:
`M3U` always has a url, `XmlTv` only when configured. -/
def linkOf (cfg : Config) : LinkType → Option String
  | LinkType.M3U => some cfg.m3u
  | LinkType.XmlTv => cfg.xml_tv

def m3uName : String := "ilovetv.m3u"

def xmlName : String := "xmltv.xml"

/-- The hard-coded published file name of each resource (main.rs
lines 122-125). -/
def fileName : LinkType → String
  | LinkType.M3U => m3uName
  | LinkType.XmlTv => xmlName

/-- Rust `str::rsplit_once(c)`: split at the last occurrence of `c`,
returning the parts before and after it, or `none` when `c` does not
occur. -/
def rsplitOnce (c : Char) : List Char → Option (List Char × List Char)
  | [] => none
  | x :: xs =>
    match rsplitOnce c xs with
    | some p => some (x :: p.1, p.2)
    | none => if x = c then some ([], xs) else none

/-- The temporary file name `{beginning}-temp.{ext}` built at main.rs
line 129, when the published name has an extension separator. -/
def tmpFileName (lt : LinkType) : Option String :=
  match rsplitOnce '.' (fileName lt).data with
  | some p => some (String.mk p.1 ++ "-temp." ++ String.mk p.2)
  | none => none

/-- The cache directory: for each resource, the content of its temporary
file and of its published file (`none` = the file is absent). -/
structure FsState where
  m3uTmp : Option (List Nat)
  m3uFile : Option (List Nat)
  xmlTmp : Option (List Nat)
  xmlFile : Option (List Nat)
deriving DecidableEq, Repr

def FsState.tmpOf (s : FsState) : LinkType → Option (List Nat)
  | LinkType.M3U => s.m3uTmp
  | LinkType.XmlTv => s.xmlTmp

/-- Content of the published file of a resource. -/
def FsState.fileOf (s : FsState) : LinkType → Option (List Nat)
  | LinkType.M3U => s.m3uFile
  | LinkType.XmlTv => s.xmlFile

def FsState.setTmp (s : FsState) : LinkType → Option (List Nat) → FsState
  | LinkType.M3U, v => { s with m3uTmp := v }
  | LinkType.XmlTv, v => { s with xmlTmp := v }

def FsState.setFile (s : FsState) : LinkType → Option (List Nat) → FsState
  | LinkType.M3U, v => { s with m3uFile := v }
  | LinkType.XmlTv, v => { s with xmlFile := v }

/-- One step of the response body stream, as `stream.try_next()` and the
following `f.write(&item)` see it: a chunk of bytes together with whether
writing it to the temporary file succeeds, the end of the body, or a
transport error from the stream. -/
inductive StreamStep where
  | chunk (bytes : List Nat) (writeOk : Bool)
  | eofMark
  | transportErr
deriving DecidableEq, Repr

/-- What one HTTP GET attempt does: `send()` fails, or a response arrives
with a status code, a flag saying whether `File::create` succeeds, and
the body stream's steps. -/
inductive HttpAttempt where
  | sendErr
  | response (status : Nat) (createOk : Bool) (body : List StreamStep)
deriving DecidableEq, Repr

/-- The error cases of `save_to_file`. -/
inductive FetchErr where
  | sendFailed
  | badStatus (code : Nat)
  | createFailed
  | writeFailed
deriving DecidableEq, Repr

/-- reqwest `StatusCode::is_success`: 2xx. -/
def statusIsSuccess (code : Nat) : Bool :=
  decide (200 ≤ code) && decide (code < 300)

/-- The `while let Ok(Some(item)) = stream.try_next().await` loop of
main.rs lines 176-178: a chunk whose write succeeds is appended and the
loop continues; a failed write propagates an error via `?`; the end of
the stream AND a transport error both just end the loop, after which
`save_to_file` returns `Ok(())`.  Returns the result together with the
bytes written to the temporary file. -/
def runStream : List StreamStep → List Nat → Except FetchErr Unit × List Nat
  | [], acc => (Except.ok (), acc)
  | StreamStep.eofMark :: _, acc => (Except.ok (), acc)
  | StreamStep.transportErr :: _, acc => (Except.ok (), acc)
  | StreamStep.chunk b wOk :: rest, acc =>
    if wOk then runStream rest (acc ++ b)
    else (Except.error FetchErr.writeFailed, acc)

/-- `ILoveTv::save_to_file` (main.rs lines 153-181): GET the url; a non-2xx
status is an error; create (truncate) the temporary file; stream the body
into it.  Returns the result and the new content of the temporary file
(`none` = the file was not touched, which happens on send/status/create
failure). -/
def save_to_file : HttpAttempt → Except FetchErr Unit × Option (List Nat)
  | HttpAttempt.sendErr => (Except.error FetchErr.sendFailed, none)
  | HttpAttempt.response st cOk body =>
    if statusIsSuccess st then
      if cOk then
        let r := runStream body []
        (r.1, some r.2)
      else (Except.error FetchErr.createFailed, none)
    else (Except.error (FetchErr.badStatus st), none)

def fetchOk : Except FetchErr Unit → Bool
  | Except.ok _ => true
  | Except.error _ => false

/-- Observable actions of the daemon: one fetch attempt for a resource
(with whether `save_to_file` succeeded), a 30-second retry back-off
sleep, a rename of the temporary file onto the published name, and the
scheduler's sleep until the next 05:30. -/
inductive Ev where
  | fetchAttempt (lt : LinkType) (ok : Bool)
  | sleepRetry (secs : Nat)
  | publishFile (lt : LinkType) (content : List Nat)
  | sleepSched (secs : Int)
deriving DecidableEq, Repr

/-- The error cases of `refresh`: the `context("Malformed filename")` error
at line 128, and an `fs::rename` failure at line 147 (the rename fails
when the temporary file does not exist). -/
inductive RErr where
  | malformed
  | renameFailed
deriving DecidableEq, Repr

/-- The part of `refresh` after the link and filename checks (main.rs
lines 132-150): run `save_to_file` into the temporary file; an error from
it is only logged (`eprintln!` at line 136), NOT returned; then
`fs::rename(tmp, published)` runs unconditionally, its failure propagated
by `?`.  The rename succeeds exactly when the temporary file exists, in
which case its content becomes the published file and the temporary file
is gone. -/
def afterSave (lt : LinkType) (att : HttpAttempt) (s : FsState) :
    Except RErr Unit × FsState × List Ev :=
  let r := save_to_file att
  let s1 := match r.2 with
    | none => s
    | some c => s.setTmp lt (some c)
  match s1.tmpOf lt with
  | some c =>
    (Except.ok (), (s1.setTmp lt none).setFile lt (some c),
      [Ev.fetchAttempt lt (fetchOk r.1), Ev.publishFile lt c])
  | none => (Except.error RErr.renameFailed, s1, [Ev.fetchAttempt lt (fetchOk r.1)])

/-- `ILoveTv::refresh` (main.rs lines 121-151): resolve the resource's
link (no link = immediate `Ok(())`, no request, no write); split the
published name on its last '.' (`context("Malformed filename")?`); then
fetch and rename as in `afterSave`. -/
def refresh (cfg : Config) (lt : LinkType) (att : HttpAttempt) (s : FsState) :
    Except RErr Unit × FsState × List Ev :=
  match linkOf cfg lt with
  | none => (Except.ok (), s, [])
  | some _ =>
    match rsplitOnce '.' (fileName lt).data with
    | none => (Except.error RErr.malformed, s, [])
    | some _ => afterSave lt att s

/-- The `while status.is_err() && counter <= retry` loop of `refresh_loop`
(main.rs lines 108-117), entered with the status of the first attempt.
`fuel` is `retry + 1 - counter` (the number of loop iterations still
allowed) and `idx` the index of the next attempt; each iteration sleeps
30 seconds and re-runs `refresh` with the next oracle attempt. -/
def retries (cfg : Config) (lt : LinkType) (oracle : Nat → HttpAttempt) :
    Nat → Nat → Except RErr Unit → FsState → Except RErr Unit × FsState × List Ev
  | 0, _, st, s => (st, s, [])
  | fuel + 1, idx, st, s =>
    match st with
    | Except.ok u => (Except.ok u, s, [])
    | Except.error _ =>
      let r1 := refresh cfg lt (oracle idx) s
      let r2 := retries cfg lt oracle fuel (idx + 1) r1.1 r1.2.1
      (r2.1, r2.2.1, (Ev.sleepRetry 30 :: r1.2.2) ++ r2.2.2)

/-- The body of `refresh_loop` for one resource (main.rs lines 102-118):
one first attempt, then the bounded retry loop.  `oracle i` is what the
i-th fetch attempt would do. -/
def refreshOne (cfg : Config) (lt : LinkType) (oracle : Nat → HttpAttempt)
    (retry : Nat) (s : FsState) : Except RErr Unit × FsState × List Ev :=
  let r1 := refresh cfg lt (oracle 0) s
  let r2 := retries cfg lt oracle retry 1 r1.1 r1.2.1
  (r2.1, r2.2.1, r1.2.2 ++ r2.2.2)

/-- `ILoveTv::refresh_loop` (main.rs lines 101-119): for each link type in
iteration order, run the refresh-with-retries; the per-resource outcome
is dropped, so a resource's failure never stops the cycle or the
process. -/
def refresh_loop (cfg : Config) (retry : Nat)
    (oracle : LinkType → Nat → HttpAttempt) (s : FsState) : FsState × List Ev :=
  iterOrder.foldl
    (fun acc lt =>
      let r := refreshOne cfg lt (oracle lt) retry acc.1
      (r.2.1, acc.2 ++ r.2.2))
    (s, [])

/-- 05:30:00 as seconds since midnight, the scheduler's target (main.rs
line 68). -/
def targetSecs : Int := 19800

/-- 19:00:00 as seconds since midnight, the startup catch-up cutoff
(main.rs line 70). -/
def cutoffSecs : Int := 68400

def daySecs : Int := 86400

/-- The sleep computation of the `daemonize` loop (main.rs lines 75-84) at
whole-second granularity: the signed difference `target - now`; when
`num_seconds() >= 0` it is used as the sleep, otherwise one day is
added. -/
def sleepSecondsTillTarget (now : Int) : Int :=
  let d := targetSecs - now
  if 0 ≤ d then d else d + daySecs

/-- `ILoveTv::daemonize` up to its first scheduled sleep (main.rs
lines 67-96): if the start time is strictly before 19:00, run one
refresh cycle with retry budget 0; then the steady-state loop reads the
clock again (`loopTime`) and sleeps until the next 05:30. -/
def daemonizeFirst (cfg : Config) (startTime loopTime : Int)
    (oracle : LinkType → Nat → HttpAttempt) (s : FsState) : FsState × List Ev :=
  let r := if startTime < cutoffSecs then refresh_loop cfg 0 oracle s else (s, [])
  (r.1, r.2 ++ [Ev.sleepSched (sleepSecondsTillTarget loopTime)])

def keyM3U : String := "M3U"

def keyXmlTv : String := "XML_TV"

def diagM3UMissing : String := "$M3U not found"

def diagXmlMissing : String := "$XML_TV not found, proceeding without..."

/-- The outcome of `ILoveTv::new`: either `process::exit(code)` or a
running daemon with its configuration; in both cases the diagnostics
printed to stderr. -/
inductive StartOutcome where
  | exited (code : Nat) (diags : List String)
  | running (cfg : Config) (diags : List String)
deriving DecidableEq, Repr

/-- `ILoveTv::new` (main.rs lines 45-65): `$M3U` missing means a
diagnostic and `process::exit(0)`; `$XML_TV` missing means a diagnostic
only and startup continues without it. -/
def iLoveTvNew (env : String → Option String) : StartOutcome :=
  match env keyM3U with
  | none => StartOutcome.exited 0 [diagM3UMissing]
  | some m3u =>
    match env keyXmlTv with
    | none => StartOutcome.running ⟨m3u, none⟩ [diagXmlMissing]
    | some x => StartOutcome.running ⟨m3u, some x⟩ []

/-- The observable actions of the whole program up to the daemon's first
scheduled sleep: when `new` exits the process, `daemonize` never runs and
no action happens. -/
def mainEvents (env : String → Option String) (startTime loopTime : Int)
    (oracle : LinkType → Nat → HttpAttempt) (s : FsState) : List Ev :=
  match iLoveTvNew env with
  | StartOutcome.exited _ _ => []
  | StartOutcome.running cfg _ => (daemonizeFirst cfg startTime loopTime oracle s).2

/-- Whether an event is a fetch attempt for the given resource. -/
def isAttemptFor (lt : LinkType) : Ev → Bool
  | Ev.fetchAttempt l _ => decide (l = lt)
  | _ => false

/-- How many fetch attempts for `lt` a trace records. -/
def countAttempts (evs : List Ev) (lt : LinkType) : Nat :=
  (evs.filter (isAttemptFor lt)).length

/-- The resource an event belongs to (`none` for sleeps). -/
def evTag : Ev → Option LinkType
  | Ev.fetchAttempt lt _ => some lt
  | Ev.publishFile lt _ => some lt
  | Ev.sleepRetry _ => none
  | Ev.sleepSched _ => none

/-- A fetch attempt that fails before the temporary file is created: a
send error, a non-2xx status, or a `File::create` failure.  Such an
attempt reports an error and leaves the cache directory untouched. -/
abbrev cleanFail (att : HttpAttempt) : Prop :=
  fetchOk (save_to_file att).1 = false ∧ (save_to_file att).2 = none

/-- The event trace of a retry run for one resource in which the first `n`
attempts fail cleanly and the next attempt succeeds, publishing `c`:
`n` failed attempts each followed by the 30-second back-off, then the
successful attempt and its publish. -/
def expectedRetryTrace (lt : LinkType) : Nat → List Nat → List Ev
  | 0, c => [Ev.fetchAttempt lt true, Ev.publishFile lt c]
  | n + 1, c =>
    Ev.fetchAttempt lt false :: Ev.sleepRetry 30 :: expectedRetryTrace lt n c

/-- An empty cache directory. -/
def fs0 : FsState := ⟨none, none, none, none⟩

def urlW : String := "http://example.invalid/playlist.m3u"

/-- A configuration with only the required M3U url. -/
def cfgW : Config := ⟨urlW, none⟩

/-- A cache directory holding a previously published complete M3U
snapshot `[9, 9]`. -/
def fsOld : FsState := ⟨none, some [9, 9], none, none⟩

/-- An attempt whose GET returns 200 but whose second body chunk fails to
write: `save_to_file` reports an error with the bytes `[1, 2]` already in
the temporary file. -/
def attHalfWrite : HttpAttempt :=
  HttpAttempt.response 200 true
    [StreamStep.chunk [1, 2] true, StreamStep.chunk [3] false]

/-- An attempt whose GET returns 200 but whose body stream yields a
transport error after delivering `[7, 8]`. -/
def attTruncated : HttpAttempt :=
  HttpAttempt.response 200 true
    [StreamStep.chunk [7, 8] true, StreamStep.transportErr]

def attSendErr : HttpAttempt := HttpAttempt.sendErr

/-- A fully successful attempt: 200, one chunk `[5]` written whole, then
the end of the stream. -/
def attGood : HttpAttempt :=
  HttpAttempt.response 200 true [StreamStep.chunk [5] true, StreamStep.eofMark]

/-- An oracle whose first attempt fails at `send()` and whose later
attempts succeed with body `[5]`. -/
def oracleW : Nat → HttpAttempt
  | 0 => attSendErr
  | _ + 1 => attGood

def oracleHalf : Nat → HttpAttempt := fun _ => attHalfWrite

def oracleAll : LinkType → Nat → HttpAttempt := fun _ _ => attGood

def envEmpty : String → Option String := fun _ => none

def envOnlyM3U : String → Option String := fun k =>
  if k = keyM3U then some urlW else none

/-! ## Helper lemmas -/

theorem tmpOf_setTmp (s : FsState) (lt : LinkType) (v : Option (List Nat)) :
    (s.setTmp lt v).tmpOf lt = v := by
  cases lt <;> rfl

theorem setTmp_setTmp (s : FsState) (lt : LinkType) (a b : Option (List Nat)) :
    (s.setTmp lt a).setTmp lt b = s.setTmp lt b := by
  cases lt <;> rfl

theorem setTmp_none_eq (s : FsState) (lt : LinkType) (h : s.tmpOf lt = none) :
    s.setTmp lt none = s := by
  cases lt <;> (cases s; simp [FsState.tmpOf] at h; simp [FsState.setTmp, h])

theorem refresh_noLink (cfg : Config) (lt : LinkType) (att : HttpAttempt)
    (s : FsState) (h : linkOf cfg lt = none) :
    refresh cfg lt att s = (Except.ok (), s, []) := by
  unfold refresh
  rw [h]

theorem refresh_link (cfg : Config) (lt : LinkType) (u : String)
    (att : HttpAttempt) (s : FsState) (h : linkOf cfg lt = some u) :
    refresh cfg lt att s = afterSave lt att s := by
  unfold refresh
  rw [h]
  cases lt <;> rfl

theorem afterSave_cleanFail (lt : LinkType) (att : HttpAttempt) (s : FsState)
    (hf : cleanFail att) (hs : s.tmpOf lt = none) :
    afterSave lt att s
      = (Except.error RErr.renameFailed, s, [Ev.fetchAttempt lt false]) := by
  obtain ⟨h1, h2⟩ := hf
  simp [afterSave, h1, h2, hs]

theorem afterSave_saveOk (lt : LinkType) (att : HttpAttempt) (s : FsState)
    (c : List Nat) (hs : s.tmpOf lt = none)
    (h : save_to_file att = (Except.ok (), some c)) :
    afterSave lt att s
      = (Except.ok (), s.setFile lt (some c),
         [Ev.fetchAttempt lt true, Ev.publishFile lt c]) := by
  simp [afterSave, h, tmpOf_setTmp, fetchOk, setTmp_setTmp, setTmp_none_eq s lt hs]

theorem retries_okStatus (cfg : Config) (lt : LinkType) (oracle : Nat → HttpAttempt)
    (fuel idx : Nat) (u : Unit) (s : FsState) :
    retries cfg lt oracle fuel idx (Except.ok u) s = (Except.ok u, s, []) := by
  cases fuel <;> rfl

theorem retries_clean_then_ok (cfg : Config) (lt : LinkType) (u : String)
    (oracle : Nat → HttpAttempt) (c : List Nat) (hlink : linkOf cfg lt = some u) :
    ∀ (k fuel idx : Nat) (s : FsState) (e : RErr),
      s.tmpOf lt = none → k < fuel →
      (∀ i, i < k → cleanFail (oracle (idx + i))) →
      save_to_file (oracle (idx + k)) = (Except.ok (), some c) →
      retries cfg lt oracle fuel idx (Except.error e) s
        = (Except.ok (), s.setFile lt (some c),
           Ev.sleepRetry 30 :: expectedRetryTrace lt k c) := by
  intro k
  induction k with
  | zero =>
    intro fuel idx s e hs hk hfail hsucc
    obtain ⟨f, rfl⟩ : ∃ f, fuel = f + 1 := ⟨fuel - 1, by omega⟩
    have h1 : refresh cfg lt (oracle idx) s
        = (Except.ok (), s.setFile lt (some c),
           [Ev.fetchAttempt lt true, Ev.publishFile lt c]) := by
      rw [refresh_link cfg lt u _ s hlink]
      exact afterSave_saveOk lt _ s c hs (by simpa using hsucc)
    simp only [retries, h1, retries_okStatus]
    simp [expectedRetryTrace]
  | succ k ih =>
    intro fuel idx s e hs hk hfail hsucc
    obtain ⟨f, rfl⟩ : ∃ f, fuel = f + 1 := ⟨fuel - 1, by omega⟩
    have hcf : cleanFail (oracle idx) := by
      have h := hfail 0 (Nat.succ_pos k)
      simpa using h
    have h1 : refresh cfg lt (oracle idx) s
        = (Except.error RErr.renameFailed, s, [Ev.fetchAttempt lt false]) := by
      rw [refresh_link cfg lt u _ s hlink]
      exact afterSave_cleanFail lt _ s hcf hs
    have h2 : retries cfg lt oracle f (idx + 1) (Except.error RErr.renameFailed) s
        = (Except.ok (), s.setFile lt (some c),
           Ev.sleepRetry 30 :: expectedRetryTrace lt k c) := by
      refine ih f (idx + 1) s RErr.renameFailed hs (by omega) ?_ ?_
      · intro i hi
        have h := hfail (i + 1) (by omega)
        have e1 : idx + (i + 1) = idx + 1 + i := by omega
        rwa [e1] at h
      · have e1 : idx + (k + 1) = idx + 1 + k := by omega
        rwa [e1] at hsucc
    simp only [retries, h1, h2]
    simp [expectedRetryTrace]

theorem afterSave_trace (lt : LinkType) (att : HttpAttempt) (s : FsState) :
    (afterSave lt att s).2.2 = [Ev.fetchAttempt lt (fetchOk (save_to_file att).1)]
    ∨ ∃ c, (afterSave lt att s).2.2
        = [Ev.fetchAttempt lt (fetchOk (save_to_file att).1), Ev.publishFile lt c] := by
  rcases h2 : (save_to_file att).2 with _ | c
  · rcases h3 : s.tmpOf lt with _ | c'
    · left; simp [afterSave, h2, h3]
    · right; exact ⟨c', by simp [afterSave, h2, h3]⟩
  · right
    refine ⟨c, ?_⟩
    simp [afterSave, h2, tmpOf_setTmp]

theorem afterSave_status (lt : LinkType) (att : HttpAttempt) (s : FsState) :
    (afterSave lt att s).1 = Except.ok ()
    ∨ (afterSave lt att s).1 = Except.error RErr.renameFailed := by
  rcases h2 : (save_to_file att).2 with _ | c
  · rcases h3 : s.tmpOf lt with _ | c'
    · right; simp [afterSave, h2, h3]
    · left; simp [afterSave, h2, h3]
  · left; simp [afterSave, h2, tmpOf_setTmp]

theorem countAttempts_append (a b : List Ev) (lt : LinkType) :
    countAttempts (a ++ b) lt = countAttempts a lt + countAttempts b lt := by
  simp [countAttempts, List.filter_append]

theorem countAttempts_refresh (cfg : Config) (lt lt' : LinkType)
    (att : HttpAttempt) (s : FsState) :
    countAttempts (refresh cfg lt att s).2.2 lt'
      = if (linkOf cfg lt).isSome ∧ lt = lt' then 1 else 0 := by
  rcases hl : linkOf cfg lt with _ | u
  · rw [refresh_noLink cfg lt att s hl]
    simp [countAttempts]
  · rw [refresh_link cfg lt u att s hl]
    rcases afterSave_trace lt att s with h | ⟨c, h⟩ <;>
      rw [h] <;> by_cases he : lt = lt' <;>
      simp [countAttempts, isAttemptFor, he]

theorem refreshOne_zero (cfg : Config) (lt : LinkType) (oracle : Nat → HttpAttempt)
    (s : FsState) :
    refreshOne cfg lt oracle 0 s
      = ((refresh cfg lt (oracle 0) s).1, (refresh cfg lt (oracle 0) s).2.1,
         (refresh cfg lt (oracle 0) s).2.2) := by
  simp [refreshOne, retries]

theorem refresh_loop_eq (cfg : Config) (retry : Nat)
    (oracle : LinkType → Nat → HttpAttempt) (s : FsState) :
    refresh_loop cfg retry oracle s
      = ((refreshOne cfg LinkType.XmlTv (oracle LinkType.XmlTv) retry
            (refreshOne cfg LinkType.M3U (oracle LinkType.M3U) retry s).2.1).2.1,
         (refreshOne cfg LinkType.M3U (oracle LinkType.M3U) retry s).2.2
           ++ (refreshOne cfg LinkType.XmlTv (oracle LinkType.XmlTv) retry
                 (refreshOne cfg LinkType.M3U (oracle LinkType.M3U) retry s).2.1).2.2) := by
  simp [refresh_loop, iterOrder]

theorem evTag_refresh (cfg : Config) (lt : LinkType) (att : HttpAttempt)
    (s : FsState) :
    ∀ e ∈ (refresh cfg lt att s).2.2, evTag e = some lt := by
  rcases hl : linkOf cfg lt with _ | u
  · rw [refresh_noLink cfg lt att s hl]; simp
  · rw [refresh_link cfg lt u att s hl]
    rcases afterSave_trace lt att s with h | ⟨c, h⟩ <;> rw [h] <;>
      intro e he <;> simp at he <;> rcases he with rfl | rfl <;> rfl

theorem evTag_retries (cfg : Config) (lt : LinkType) (oracle : Nat → HttpAttempt) :
    ∀ (fuel idx : Nat) (st : Except RErr Unit) (s : FsState),
      ∀ e ∈ (retries cfg lt oracle fuel idx st s).2.2,
        evTag e = some lt ∨ e = Ev.sleepRetry 30 := by
  intro fuel
  induction fuel with
  | zero =>
    intro idx st s e he
    simp [retries] at he
  | succ f ih =>
    intro idx st s e he
    cases st with
    | ok u => simp [retries] at he
    | error er =>
      simp only [retries, List.cons_append, List.mem_cons, List.mem_append] at he
      rcases he with rfl | he | he
      · right; rfl
      · left; exact evTag_refresh cfg lt (oracle idx) s e he
      · exact ih (idx + 1) _ _ e he

theorem evTag_refreshOne (cfg : Config) (lt : LinkType) (oracle : Nat → HttpAttempt)
    (retry : Nat) (s : FsState) :
    ∀ e ∈ (refreshOne cfg lt oracle retry s).2.2,
      evTag e = some lt ∨ e = Ev.sleepRetry 30 := by
  intro e he
  simp only [refreshOne, List.mem_append] at he
  rcases he with he | he
  · left; exact evTag_refresh cfg lt (oracle 0) s e he
  · exact evTag_retries cfg lt oracle retry 1 _ _ e he

theorem countAttempts_cycle_zero (cfg : Config)
    (oracle : LinkType → Nat → HttpAttempt) (s : FsState) (lt : LinkType) :
    countAttempts (refresh_loop cfg 0 oracle s).2 lt
      = if (linkOf cfg lt).isSome then 1 else 0 := by
  rw [refresh_loop_eq, countAttempts_append, refreshOne_zero, refreshOne_zero,
    countAttempts_refresh, countAttempts_refresh]
  cases lt
  · simp [linkOf]
  · rcases hx : cfg.xml_tv with _ | u <;> simp [linkOf, hx]

/-! ## The claims -/

/-- C1: the published-file invariant fails on the code.  `attHalfWrite` is a
fetch attempt whose GET returns 200 but whose body write fails after the
bytes `[1, 2]`: `save_to_file` reports the error, yet `refresh` only logs it
and renames the half-written temporary file onto the published name, so the
published M3U file becomes the partial body `[1, 2]` of a FAILED fetch —
not the complete body of any past successful fetch (starting from an empty
cache there has been none). -/
theorem C1_partial_body_published :
    save_to_file attHalfWrite = (Except.error FetchErr.writeFailed, some [1, 2])
    ∧ refresh cfgW LinkType.M3U attHalfWrite fs0
        = (Except.ok (), ⟨none, some [1, 2], none, none⟩,
           [Ev.fetchAttempt LinkType.M3U false, Ev.publishFile LinkType.M3U [1, 2]]) := by
  constructor <;> rfl

/-- C2: with retry budget 0 the single fetch attempt fails
(`save_to_file attHalfWrite` is an error), i.e. every one of the
maxRetries+1 = 1 attempts fails, yet the previously published complete
snapshot `[9, 9]` is NOT left unchanged: `refresh` renames the half-written
temporary file over it, leaving `[1, 2]`.  (The failure indeed never
terminates the process: `refreshOne` returns a value, here even `ok`.) -/
theorem C2_failed_attempts_replace_published :
    fsOld.fileOf LinkType.M3U = some [9, 9]
    ∧ fetchOk (save_to_file (oracleHalf 0)).1 = false
    ∧ refreshOne cfgW LinkType.M3U oracleHalf 0 fsOld
        = (Except.ok (), ⟨none, some [1, 2], none, none⟩,
           [Ev.fetchAttempt LinkType.M3U false, Ev.publishFile LinkType.M3U [1, 2]]) := by
  refine ⟨rfl, rfl, rfl⟩

/-- C3: for a resource with a url, if the first N fetch attempts fail
(cleanly: before the temporary file is created, the only way the retry
loop can reach a further attempt — an attempt that fails after creating
the temporary file ends the loop by getting published, the C1/C2 bug) and
the (N+1)-th attempt succeeds with body `c`, N ≤ retry, then the run makes
exactly N+1 attempts, separated by 30-second sleeps, publishes exactly
once, with `c`, and the published file ends as `c`: the whole trace is
`expectedRetryTrace lt N c`. -/
theorem C3_retry_until_success (cfg : Config) (lt : LinkType) (u : String)
    (oracle : Nat → HttpAttempt) (retry N : Nat) (s : FsState) (c : List Nat)
    (hlink : linkOf cfg lt = some u) (hN : N ≤ retry) (hs : s.tmpOf lt = none)
    (hfail : ∀ i, i < N → cleanFail (oracle i))
    (hsucc : save_to_file (oracle N) = (Except.ok (), some c)) :
    refreshOne cfg lt oracle retry s
      = (Except.ok (), s.setFile lt (some c), expectedRetryTrace lt N c) := by
  cases N with
  | zero =>
    have h1 : refresh cfg lt (oracle 0) s
        = (Except.ok (), s.setFile lt (some c),
           [Ev.fetchAttempt lt true, Ev.publishFile lt c]) := by
      rw [refresh_link cfg lt u _ s hlink]
      exact afterSave_saveOk lt _ s c hs hsucc
    simp only [refreshOne, h1, retries_okStatus]
    simp [expectedRetryTrace]
  | succ k =>
    have hcf : cleanFail (oracle 0) := hfail 0 (Nat.succ_pos k)
    have h1 : refresh cfg lt (oracle 0) s
        = (Except.error RErr.renameFailed, s, [Ev.fetchAttempt lt false]) := by
      rw [refresh_link cfg lt u _ s hlink]
      exact afterSave_cleanFail lt _ s hcf hs
    have h2 : retries cfg lt oracle retry 1 (Except.error RErr.renameFailed) s
        = (Except.ok (), s.setFile lt (some c),
           Ev.sleepRetry 30 :: expectedRetryTrace lt k c) := by
      refine retries_clean_then_ok cfg lt u oracle c hlink k retry 1 s
        RErr.renameFailed hs (by omega) ?_ ?_
      · intro i hi
        have h := hfail (i + 1) (by omega)
        have e1 : i + 1 = 1 + i := by omega
        rwa [e1] at h
      · have e1 : k + 1 = 1 + k := by omega
        rwa [e1] at hsucc
    simp only [refreshOne, h1, h2]
    simp [expectedRetryTrace]

/-- C3 witness: with `oracleW` (first attempt a send error, second a full
success with body `[5]`) and retry budget 1, the theorem's hypotheses hold
and the run publishes `[5]` after exactly two attempts and one 30-second
sleep. -/
theorem C3_retry_until_success_witness :
    linkOf cfgW LinkType.M3U = some urlW
    ∧ fs0.tmpOf LinkType.M3U = none
    ∧ (∀ i, i < 1 → cleanFail (oracleW i))
    ∧ save_to_file (oracleW 1) = (Except.ok (), some [5])
    ∧ refreshOne cfgW LinkType.M3U oracleW 1 fs0
        = (Except.ok (), fs0.setFile LinkType.M3U (some [5]),
           expectedRetryTrace LinkType.M3U 1 [5]) :=
  ⟨rfl, rfl, by decide, rfl,
    C3_retry_until_success cfgW LinkType.M3U urlW oracleW 1 1 fs0 [5]
      rfl (Nat.le_refl 1) rfl (by decide) rfl⟩

/-- C4 counterexample: at exactly 05:30 (19800 seconds) the code computes a
sleep of 0 seconds (the branch `num_seconds() >= 0` takes the zero
difference as the sleep), not the 24 hours the claim states. -/
theorem C4_sleep_at_target_counterexample :
    sleepSecondsTillTarget 19800 = 0
    ∧ sleepSecondsTillTarget 19800 ≠ 86400 := by
  constructor
  · rfl
  · decide

/-- C4 amended: the wait is 05:30 − t for t strictly before 05:30; it is 0
(not 24 hours) at exactly 05:30; and it is (05:30 − t) + 24h only for t
strictly after 05:30.  The claim's examples at 04:00 (1h30m) and 06:00
(23h30m) hold. -/
theorem C4_sleep_computation_amended (t : Int) :
    (t < targetSecs → sleepSecondsTillTarget t = targetSecs - t)
    ∧ (t = targetSecs → sleepSecondsTillTarget t = 0)
    ∧ (targetSecs < t → sleepSecondsTillTarget t = (targetSecs - t) + daySecs)
    ∧ sleepSecondsTillTarget 14400 = 5400
    ∧ sleepSecondsTillTarget 21600 = 84600 := by
  refine ⟨fun h => ?_, fun h => ?_, fun h => ?_, by decide, by decide⟩ <;>
  · simp only [sleepSecondsTillTarget, targetSecs, daySecs] at h ⊢
    split_ifs <;> omega

/-- C5: when the process starts strictly before 19:00, `daemonize` first
runs one refresh cycle with retry budget 0 — exactly one fetch attempt per
configured resource, none for a resource with no url — and only then sleeps
until 05:30; at or after 19:00 it proceeds directly to the scheduled
sleep with no fetch at all. -/
theorem C5_startup_catchup (cfg : Config) (startTime loopTime : Int)
    (oracle : LinkType → Nat → HttpAttempt) (s : FsState) :
    (startTime < cutoffSecs →
      daemonizeFirst cfg startTime loopTime oracle s
        = ((refresh_loop cfg 0 oracle s).1,
           (refresh_loop cfg 0 oracle s).2
             ++ [Ev.sleepSched (sleepSecondsTillTarget loopTime)])
      ∧ ∀ lt, countAttempts (refresh_loop cfg 0 oracle s).2 lt
          = if (linkOf cfg lt).isSome then 1 else 0)
    ∧ (cutoffSecs ≤ startTime →
      daemonizeFirst cfg startTime loopTime oracle s
        = (s, [Ev.sleepSched (sleepSecondsTillTarget loopTime)])) := by
  constructor
  · intro h
    constructor
    · simp [daemonizeFirst, if_pos h]
    · intro lt
      exact countAttempts_cycle_zero cfg oracle s lt
  · intro h
    have h2 : ¬ startTime < cutoffSecs := not_lt.mpr h
    simp [daemonizeFirst, if_neg h2]

/-- C6: a missing `$M3U` makes `ILoveTv::new` print its diagnostic and exit
the process with status 0, so no refresh cycle (indeed no action at all)
ever runs; a missing `$XML_TV` only prints a diagnostic and startup
continues with the secondary url unset. -/
theorem C6_env_required_optional (env : String → Option String) :
    (env keyM3U = none →
      iLoveTvNew env = StartOutcome.exited 0 [diagM3UMissing]
      ∧ ∀ (t1 t2 : Int) (oracle : LinkType → Nat → HttpAttempt) (s : FsState),
          mainEvents env t1 t2 oracle s = [])
    ∧ (∀ m, env keyM3U = some m → env keyXmlTv = none →
        iLoveTvNew env = StartOutcome.running ⟨m, none⟩ [diagXmlMissing]) := by
  constructor
  · intro h
    constructor
    · simp [iLoveTvNew, h]
    · intro t1 t2 oracle s
      simp [mainEvents, iLoveTvNew, h]
  · intro m hm hx
    simp [iLoveTvNew, hm, hx]

/-- C7: refreshing a resource with no configured url returns success at
once, touching no file and emitting no event — in particular no HTTP
request (no fetch attempt in the trace) and no write (the state is
returned unchanged). -/
theorem C7_no_url_no_effect (cfg : Config) (lt : LinkType) (att : HttpAttempt)
    (s : FsState) (h : linkOf cfg lt = none) :
    refresh cfg lt att s = (Except.ok (), s, []) :=
  refresh_noLink cfg lt att s h

/-- C7 witness: with only `$M3U` configured, refreshing the XMLTV resource
is a no-op success. -/
theorem C7_no_url_no_effect_witness :
    refresh cfgW LinkType.XmlTv attGood fs0 = (Except.ok (), fs0, []) :=
  C7_no_url_no_effect cfgW LinkType.XmlTv attGood fs0 rfl

/-- C8: a refresh cycle handles M3U first and XMLTV second: the cycle's
trace is the M3U run's trace followed by the XMLTV run's trace (started
from the M3U run's final state), every event of the first part being an
M3U event or a retry sleep and every event of the second an XMLTV event or
a retry sleep; the XMLTV run is performed whatever the M3U run's outcome,
since `refresh_loop` drops the per-resource status. -/
theorem C8_sequential_cycle (cfg : Config) (retry : Nat)
    (oracle : LinkType → Nat → HttpAttempt) (s : FsState) :
    refresh_loop cfg retry oracle s
      = ((refreshOne cfg LinkType.XmlTv (oracle LinkType.XmlTv) retry
            (refreshOne cfg LinkType.M3U (oracle LinkType.M3U) retry s).2.1).2.1,
         (refreshOne cfg LinkType.M3U (oracle LinkType.M3U) retry s).2.2
           ++ (refreshOne cfg LinkType.XmlTv (oracle LinkType.XmlTv) retry
                 (refreshOne cfg LinkType.M3U (oracle LinkType.M3U) retry s).2.1).2.2)
    ∧ (∀ e ∈ (refreshOne cfg LinkType.M3U (oracle LinkType.M3U) retry s).2.2,
        evTag e = some LinkType.M3U ∨ e = Ev.sleepRetry 30)
    ∧ (∀ e ∈ (refreshOne cfg LinkType.XmlTv (oracle LinkType.XmlTv) retry
          (refreshOne cfg LinkType.M3U (oracle LinkType.M3U) retry s).2.1).2.2,
        evTag e = some LinkType.XmlTv ∨ e = Ev.sleepRetry 30) :=
  ⟨refresh_loop_eq cfg retry oracle s,
   evTag_refreshOne cfg LinkType.M3U (oracle LinkType.M3U) retry s,
   evTag_refreshOne cfg LinkType.XmlTv (oracle LinkType.XmlTv) retry _⟩

/-- C9: a 2xx response whose body stream yields a transport error after the
bytes `[7, 8]` makes the read loop stop at the error, and `save_to_file`
returns `Ok` with only the truncated body `[7, 8]` in the temporary file:
the truncation is reported to the caller as a successful fetch. -/
theorem C9_truncated_stream_reported_ok :
    attTruncated
      = HttpAttempt.response 200 true
          [StreamStep.chunk [7, 8] true, StreamStep.transportErr]
    ∧ save_to_file attTruncated = (Except.ok (), some [7, 8]) :=
  ⟨rfl, rfl⟩

/-- C10: both hard-coded published names contain a '.', so
`rsplit_once('.')` always yields a split and `refresh` can never return the
"Malformed filename" error: its only outcomes are success or a rename
failure. -/
theorem C10_malformed_unreachable :
    ∀ (cfg : Config) (lt : LinkType) (att : HttpAttempt) (s : FsState),
      (rsplitOnce '.' (fileName lt).data).isSome = true
      ∧ ((refresh cfg lt att s).1 = Except.ok ()
          ∨ (refresh cfg lt att s).1 = Except.error RErr.renameFailed) := by
  intro cfg lt att s
  refine ⟨by cases lt <;> rfl, ?_⟩
  rcases hl : linkOf cfg lt with _ | u
  · rw [refresh_noLink cfg lt att s hl]
    left
    rfl
  · rw [refresh_link cfg lt u att s hl]
    exact afterSave_status lt att s

end ILovetv
